import Mathlib

/-!
Verification development for the frame ingestion and live-broadcast pipeline
of the TESA drone backend. The definitions below are a shallow embedding of
the TypeScript source:

  * src/schemas/frame.ts        — frameSchema (zod), embedded as frameSchemaParse
  * src/mqtt/ingest.ts          — the bus ingest message handler, ingestHandler
  * src/services/camera-info.ts — mapCameraInfo (enrichment client)
  * the WebSocket hub file      — broadcast over the viewer set (wsBroadcast)
                                  and the per-connection device session
                                  (deviceStep)
  * src/routes/admin.ts         — POST /admin/reprocess/:rawId (reprocess)

Wire numbers are modelled as exact decimals (mantissa times a power of ten),
which is the shape of every number reachable from JSON text and from the
string coercions (parseFloat, parseInt) the schema performs. External effects
(database writes, MQTT, WebSocket sends, the camera-info HTTP call) are
modelled as an explicit event trace and an environment record describing the
outcome of each external call.
-/

/-- Exact decimal number: value is m * 10 ^ e. JSON numeric literals and the
results of the parseFloat / parseInt string coercions are always of this
shape. (JS stores them as float64; the claims under study only involve small
decimals that float64 represents exactly, so the decimal model is faithful
on every input the theorems touch.) -/
structure Dec where
  m : Int
  e : Int
  deriving DecidableEq

/-- 10 ^ n as an integer. -/
def ipow10 (n : Nat) : Int := (10 : Int) ^ n

/-- The real value of a decimal, as a rational (used only in statements). -/
def Dec.toRat (d : Dec) : ℚ := (d.m : ℚ) * (10 : ℚ) ^ d.e

/-- Number.isInteger on a decimal value. -/
def Dec.isInt (d : Dec) : Bool :=
  if 0 ≤ d.e then true else d.m % ipow10 (-d.e).toNat = 0

/-- The integer value of a decimal (exact when isInt; otherwise truncating,
matching how an integral JS context would consume it; the claims never
evaluate it on a non-integral decimal). -/
def Dec.toInt (d : Dec) : Int :=
  if 0 ≤ d.e then d.m * ipow10 d.e.toNat else d.m / ipow10 (-d.e).toNat

/-- JSON value, the input type of the zod schema and of the handlers. -/
inductive Json where
  | null
  | bool (b : Bool)
  | num (d : Dec)
  | str (s : String)
  | arr (elems : List Json)
  | obj (fields : List (String × Json))

/-- First binding of a key in an object field list (JSON objects produced by
JSON.parse never repeat keys; lookup takes the first binding). -/
def jlookup : List (String × Json) → String → Option Json
  | [], _ => none
  | (k, v) :: rest, key => if k = key then some v else jlookup rest key

/-- JS member access j.key: a field of an object, undefined otherwise
(none models undefined; access on null is handled at each use site, where
the source would throw). -/
def jget : Json → String → Option Json
  | .obj fs, key => jlookup fs key
  | _, _ => none

/-- JS truthiness of a possibly-undefined JSON value. -/
def truthy : Option Json → Bool
  | none => false
  | some .null => false
  | some (.bool b) => b
  | some (.num d) => ¬ d.m = 0
  | some (.str s) => ¬ s = ""
  | some (.arr _) => true
  | some (.obj _) => true

/-- JS whitespace accepted by parseFloat / parseInt (the common subset; the
exotic Unicode space characters are not reachable in the payloads studied). -/
def isSpaceJS (c : Char) : Bool := c = ' ' ∨ c = '\t' ∨ c = '\n' ∨ c = '\r'

/-- Split a leading run of decimal digits off a character list. -/
def splitDigits : List Char → List Nat × List Char
  | [] => ([], [])
  | c :: cs =>
    if c.isDigit then
      let (ds, rest) := splitDigits cs
      ((c.toNat - 48) :: ds, rest)
    else ([], c :: cs)

/-- Digits to a natural number, most significant first. -/
def digitsToNat (ds : List Nat) : Nat := ds.foldl (fun a d => a * 10 + d) 0

/-- Strip one optional sign character, returning (isNegative, rest). -/
def splitSign : List Char → Bool × List Char
  | '-' :: rest => (true, rest)
  | '+' :: rest => (false, rest)
  | cs => (false, cs)

/-- JS parseFloat: skip whitespace, optional sign, then the longest prefix of
the form digits [ . digits ] [ (e|E) sign digits ]; none models NaN. An
incomplete exponent is not consumed, as in JS (parseFloat of the string 1e
gives 1). The Infinity literal is not modelled: JSON numbers are always
finite and no payload under study carries it. -/
def parseFloatJS (s : String) : Option Dec :=
  let cs := s.data.dropWhile isSpaceJS
  let (neg, cs) := splitSign cs
  let (intDs, cs) := splitDigits cs
  let (fracDs, cs) :=
    match cs with
    | '.' :: rest => splitDigits rest
    | _ => ([], cs)
  if intDs = [] ∧ fracDs = [] then none
  else
    let expVal : Int :=
      match cs with
      | c :: rest =>
        if c = 'e' ∨ c = 'E' then
          let (esign, rest') := splitSign rest
          let (eds, _) := splitDigits rest'
          if eds = [] then 0
          else if esign then -(digitsToNat eds : Int) else (digitsToNat eds : Int)
        else 0
      | [] => 0
    let mant : Int := (digitsToNat (intDs ++ fracDs) : Int)
    some ⟨if neg then -mant else mant, expVal - (fracDs.length : Int)⟩

/-- JS parseInt with radix 10: skip whitespace, optional sign, then the
longest prefix of decimal digits; none models NaN. -/
def parseIntJS (s : String) : Option Int :=
  let cs := s.data.dropWhile isSpaceJS
  let (neg, cs) := splitSign cs
  let (ds, _) := splitDigits cs
  if ds = [] then none
  else some (if neg then -(digitsToNat ds : Int) else (digitsToNat ds : Int))

/-- Days from the civil epoch 1970-01-01 (standard civil calendar
computation; all quantities stay non-negative for the dates under study). -/
def daysFromCivil (y m d : Int) : Int :=
  let y := if m ≤ 2 then y - 1 else y
  let era := (if 0 ≤ y then y else y - 399) / 400
  let yoe := y - era * 400
  let mp := (m + 9) % 12
  let doy := (153 * mp + 2) / 5 + d - 1
  let doe := yoe * 365 + yoe / 4 - yoe / 100 + doy
  era * 146097 + doe - 719468

/-- Read exactly n digits as a Nat, returning the value and the rest. -/
def takeFixedDigits (n : Nat) (cs : List Char) : Option (Nat × List Char) :=
  match n, cs with
  | 0, cs => some (0, cs)
  | Nat.succ k, c :: cs =>
    if c.isDigit then
      match takeFixedDigits k cs with
      | some (v, rest) => some ((c.toNat - 48) * 10 ^ k + v, rest)
      | none => none
    else none
  | Nat.succ _, [] => none

/-- Expect one literal character. -/
def expectChar (c : Char) : List Char → Option (List Char)
  | c' :: rest => if c' = c then some rest else none
  | [] => none

/-- Milliseconds since epoch of an ISO-8601 UTC string of the form
YYYY-MM-DDTHH:MM:SS[.mmm]Z. This models the host Date.parse on the ISO
subset the devices emit; other date formats are modelled as failures. -/
def isoParseMs (s : String) : Option Int := do
  let cs := s.data
  let (y, cs) ← takeFixedDigits 4 cs
  let cs ← expectChar '-' cs
  let (mo, cs) ← takeFixedDigits 2 cs
  let cs ← expectChar '-' cs
  let (d, cs) ← takeFixedDigits 2 cs
  let cs ← expectChar 'T' cs
  let (h, cs) ← takeFixedDigits 2 cs
  let cs ← expectChar ':' cs
  let (mi, cs) ← takeFixedDigits 2 cs
  let cs ← expectChar ':' cs
  let (sec, cs) ← takeFixedDigits 2 cs
  let (ms, cs) ←
    match cs with
    | '.' :: rest =>
      match takeFixedDigits 3 rest with
      | some (v, rest') => some (v, rest')
      | none => none
    | _ => some (0, cs)
  let cs ← expectChar 'Z' cs
  if cs = [] ∧ 1 ≤ mo ∧ mo ≤ 12 ∧ 1 ≤ d ∧ d ≤ 31 ∧ h ≤ 23 ∧ mi ≤ 59 ∧ sec ≤ 59 then
    some (daysFromCivil y mo d * 86400000
      + (h : Int) * 3600000 + (mi : Int) * 60000 + (sec : Int) * 1000 + (ms : Int))
  else none

/-- z.coerce.date(): new Date(input), failing on an invalid date. Numbers are
epoch milliseconds (truncated to an integer); strings go through the ISO
parse; the boolean and null coercions mirror the numeric conversion JS
applies; arrays and objects are modelled as failures. -/
def coerceDate : Json → Option Int
  | .num d => some d.toInt
  | .str s => isoParseMs s
  | .bool b => some (if b then 1 else 0)
  | .null => some 0
  | _ => none

/-- camera_info object resolved by the metadata service (zod cameraInfoSchema
in src/services/camera-info.ts and the nested object in frameSchema). -/
structure CameraInfo where
  name : String
  sort : String
  location : String
  institute : String
  deriving DecidableEq

/-- token_id object of the frame schema: a wrapper around camera_info. -/
structure TokenId where
  camera_info : CameraInfo
  deriving DecidableEq

/-- image_info object of the frame schema (width and height pass the
z.number().int() check, so they are integers). -/
structure ImageInfo where
  width : Int
  height : Int
  deriving DecidableEq

/-- One detected object of the frame schema. -/
structure DetectedObject where
  obj_id : String
  type : Option String
  lat : Dec
  lng : Dec
  alt : Dec
  speed_kt : Dec
  deriving DecidableEq

/-- Output of frameSchema.parse (zod strips unknown keys; timestamp is the
coerced Date held as epoch milliseconds). -/
structure FramePayload where
  fram_id : String
  cam_id : String
  token_id : TokenId
  timestamp : Int
  image_info : ImageInfo
  objects : List DetectedObject
  deriving DecidableEq

/-- z.string(). -/
def zString : Json → Option String
  | .str s => some s
  | _ => none

/-- z.string().min(1). -/
def zStringMin1 : Json → Option String
  | .str s => if s = "" then none else some s
  | _ => none

/-- The num helper of frame.ts: z.preprocess(string to parseFloat, z.number()).
A non-string non-number is passed through the preprocess unchanged and then
rejected by z.number(); a string that parseFloat maps to NaN is rejected by
z.number() as well (zod treats NaN as its own parsed type, not a number). -/
def zNum : Json → Option Dec
  | .num d => some d
  | .str s => parseFloatJS s
  | _ => none

/-- The int helper of frame.ts: z.preprocess(string to parseInt radix 10,
z.number().int()). -/
def zInt : Json → Option Int
  | .num d => if d.isInt then some d.toInt else none
  | .str s => parseIntJS s
  | _ => none

/-- Parse the camera_info object of the schema. -/
def parseCameraInfo (j : Json) : Option CameraInfo :=
  match j with
  | .obj fs =>
    match (jlookup fs "name").bind zString, (jlookup fs "sort").bind zString,
          (jlookup fs "location").bind zString, (jlookup fs "institute").bind zString with
    | some n, some so, some l, some i => some ⟨n, so, l, i⟩
    | _, _, _, _ => none
  | _ => none

/-- Parse the token_id object of the schema. -/
def parseTokenId (j : Json) : Option TokenId :=
  match j with
  | .obj fs =>
    match (jlookup fs "camera_info").bind parseCameraInfo with
    | some ci => some ⟨ci⟩
    | none => none
  | _ => none

/-- Parse the image_info object of the schema. -/
def parseImageInfo (j : Json) : Option ImageInfo :=
  match j with
  | .obj fs =>
    match (jlookup fs "width").bind zInt, (jlookup fs "height").bind zInt with
    | some w, some h => some ⟨w, h⟩
    | _, _ => none
  | _ => none

/-- Parse one element of the objects array. The type field is optional: an
absent field parses to none, a present field must be a string. -/
def parseDetectedObject (j : Json) : Option DetectedObject :=
  match j with
  | .obj fs =>
    match (jlookup fs "obj_id").bind zStringMin1,
          (jlookup fs "lat").bind zNum, (jlookup fs "lng").bind zNum,
          (jlookup fs "alt").bind zNum, (jlookup fs "speed_kt").bind zNum with
    | some oid, some la, some ln, some al, some sp =>
      match jlookup fs "type" with
      | none => some ⟨oid, none, la, ln, al, sp⟩
      | some tv =>
        match zString tv with
        | some t => some ⟨oid, some t, la, ln, al, sp⟩
        | none => none
    | _, _, _, _, _ => none
  | _ => none

/-- Parse every element of the objects array; one bad element fails the
whole array (z.array semantics). -/
def parseObjects : List Json → Option (List DetectedObject)
  | [] => some []
  | x :: xs =>
    match parseDetectedObject x, parseObjects xs with
    | some o, some os => some (o :: os)
    | _, _ => none

/-- The objects field must be an array. -/
def parseObjectsField (j : Json) : Option (List DetectedObject) :=
  match j with
  | .arr xs => parseObjects xs
  | _ => none

/-- frameSchema.parse of src/schemas/frame.ts: requires an object carrying
fram_id (z.string()), cam_id (z.string().min(1)), token_id, timestamp
(z.coerce.date()), image_info and objects; fails otherwise. -/
def frameSchemaParse (j : Json) : Option FramePayload :=
  match j with
  | .obj fs =>
    match (jlookup fs "fram_id").bind zString,
          (jlookup fs "cam_id").bind zStringMin1,
          (jlookup fs "token_id").bind parseTokenId,
          (jlookup fs "timestamp").bind coerceDate,
          (jlookup fs "image_info").bind parseImageInfo,
          (jlookup fs "objects").bind parseObjectsField with
    | some fid, some cid, some tid, some ts, some ii, some objs =>
      some ⟨fid, cid, tid, ts, ii, objs⟩
    | _, _, _, _, _, _ => none
  | _ => none

/-- Base64 alphabet. -/
def b64Char (n : Nat) : Char :=
  "ABCDEFGHIJKLMNOPQRSTUVWXYZabcdefghijklmnopqrstuvwxyz0123456789+/".data.getD n 'A'

/-- Base64 encoding of a byte list, three bytes at a time with padding
(Buffer.toString base64). -/
def base64Chunks : List Nat → List Char
  | [] => []
  | [a] =>
    let a := a % 256
    [b64Char (a / 4), b64Char (a % 4 * 16), '=', '=']
  | [a, b] =>
    let a := a % 256
    let b := b % 256
    [b64Char (a / 4), b64Char (a % 4 * 16 + b / 16), b64Char (b % 16 * 4), '=']
  | a :: b :: c :: rest =>
    let a := a % 256
    let b := b % 256
    let c := c % 256
    b64Char (a / 4) :: b64Char (a % 4 * 16 + b / 16) ::
      b64Char (b % 16 * 4 + c / 64) :: b64Char (c % 64) :: base64Chunks rest

/-- Buffer.toString base64 on the raw bytes of a binary message. -/
def base64Encode (bytes : List Nat) : String := String.mk (base64Chunks bytes)

/-- Argument record of saveFrame (src/services/frames.ts), as assembled by
the ingest and reprocess handlers. -/
structure SavedObject where
  objId : String
  type : Option String
  lat : Dec
  lng : Dec
  alt : Dec
  speedKt : Dec
  deriving DecidableEq

/-- The saveFrame parameter object. -/
structure SaveFrameParams where
  framId : String
  camId : String
  cameraName : String
  cameraSort : String
  cameraLocation : String
  cameraInstitute : String
  timestamp : Int
  imageWidth : Int
  imageHeight : Int
  objects : List SavedObject
  deriving DecidableEq

/-- The object the bus handler passes to broadcast: the validated frame
fields with the timestamp rendered to ISO text on the wire (kept here as the
epoch value it renders). -/
structure BusMsg where
  fram_id : String
  cam_id : String
  token_id : TokenId
  timestamp : Int
  image_info : ImageInfo
  objects : List DetectedObject
  deriving DecidableEq

/-- The object the device session passes to broadcast: kind, the metadata
(with token_id possibly replaced by the freshly fetched camera info) and the
base64 image. -/
structure DevOut where
  kind : String
  meta : FramePayload
  image_jpeg_base64 : String
  deriving DecidableEq

/-- Observable external effects of the handlers, in program order. Raw
message log writes go through saveRaw (src/services/raw.ts): the first write
records receipt, the later write marks the processing outcome. -/
inductive Event where
  | rawReceived (topic text : String)
  | persistFrame (p : SaveFrameParams)
  | busBroadcast (b : BusMsg)
  | rawMarkedOk
  | rawMarkedFailed (reason : String)
  | devEnrichCall
  | devBroadcast (d : DevOut)
  | devWarnNoMetadata
  | devErrorLogged
  deriving DecidableEq

/-- Is an event a saveFrame persistence call. -/
def Event.isPersist : Event → Bool
  | .persistFrame _ => true
  | _ => false

/-- Is an event a broadcast to the viewer hub (either path). -/
def Event.isBroadcast : Event → Bool
  | .busBroadcast _ => true
  | .devBroadcast _ => true
  | _ => false

/-- Number of persistence calls in a trace. -/
def persistCount (evs : List Event) : Nat := (evs.filter Event.isPersist).length

/-- Number of broadcast calls in a trace. -/
def broadcastCount (evs : List Event) : Nat := (evs.filter Event.isBroadcast).length

/-- Outcomes of the external collaborators, plus the process configuration
the handler reads: the subscribed topic name, the CAMERA_TOKEN environment
variable, the result of the camera-info API call (none models a network or
mapping failure, in which case mapCameraInfo throws), and whether the
database accepts the saveFrame write. -/
structure Env where
  topicFrame : String
  cameraToken : String
  apiCameraInfo : Option CameraInfo
  persistOk : Bool

/-- token_id object carrying a resolved camera_info, as mapCameraInfo and
the device session build it. -/
def tokenIdJson (ci : CameraInfo) : Json :=
  .obj [("camera_info", .obj [("name", .str ci.name), ("sort", .str ci.sort),
    ("location", .str ci.location), ("institute", .str ci.institute)])]

/-- Own enumerable fields contributed by a value under JS object spread:
objects contribute their fields, arrays and strings contribute index keys,
other primitives contribute nothing. -/
def enumFields (xs : List Json) : List (String × Json) :=
  xs.enum.map (fun p => (toString p.1, p.2))

/-- Fields a JSON value contributes to an object spread. -/
def toSpreadFields : Json → List (String × Json)
  | .obj fs => fs
  | .arr xs => enumFields xs
  | .str s => enumFields (s.data.map (fun c => Json.str (String.mk [c])))
  | _ => []

/-- Rest destructuring without one key (the token_id removal in ingest.ts),
preserving field order. -/
def removeKey (fs : List (String × Json)) (k : String) : List (String × Json) :=
  fs.filter (fun kv => ¬ kv.1 = k)

/-- JS spread update: the object with key k bound to v, replacing an
existing binding in place, otherwise appending it. -/
def spreadSet (fs : List (String × Json)) (k : String) (v : Json) : List (String × Json) :=
  if (jlookup fs k).isSome then fs.map (fun kv => if kv.1 = k then (k, v) else kv)
  else fs ++ [(k, v)]

/-- mapCameraInfo of src/services/camera-info.ts: guards on cam_id and
token, then the API call; on success the payload is returned with token_id
replaced by the resolved camera_info wrapper. The entire network and
response-mapping pipeline is summarised by env.apiCameraInfo: none makes the
function throw (any of the axios or zod error branches), some ci yields the
mapped camera info. -/
def mapCameraInfo (env : Env) (payload : Json) (token : String) : Except String Json :=
  if ¬ truthy (jget payload "cam_id") then .error "cam_id is required in payload"
  else if token = "" then .error "token is required"
  else
    match env.apiCameraInfo with
    | none => .error "camera info API call failed"
    | some ci => .ok (.obj (spreadSet (toSpreadFields payload) "token_id" (tokenIdJson ci)))

/-- Token selection in ingest.ts: the token_id field when it is a string,
otherwise the CAMERA_TOKEN environment value. -/
def tokenOf (env : Env) (json : Json) : String :=
  match jget json "token_id" with
  | some (.str s) => s
  | _ => env.cameraToken

/-- The optional-chaining access json.token_id?.camera_info. -/
def embeddedCameraInfo (json : Json) : Option Json :=
  match jget json "token_id" with
  | some (.obj fs) => jlookup fs "camera_info"
  | _ => none

/-- Truthiness of the embedded camera_info fallback check in ingest.ts. -/
def hasEmbeddedCameraInfo (json : Json) : Bool := truthy (embeddedCameraInfo json)

/-- The enrichment stage of the bus handler (ingest.ts lines 43 to 71):
choose a token; with a token, call mapCameraInfo on the payload without
token_id and fall back to the inbound payload when it already embeds a
camera_info; without a token, use the embedded camera_info or fail. -/
def computeEnriched (env : Env) (json : Json) : Except String Json :=
  let token := tokenOf env json
  if ¬ token = "" then
    match mapCameraInfo env (.obj (removeKey (toSpreadFields json) "token_id")) token with
    | .ok ep => .ok ep
    | .error msg =>
      if hasEmbeddedCameraInfo json then .ok json
      else .error ("Camera info not available and API call failed: " ++ msg)
  else
    if hasEmbeddedCameraInfo json then .ok json
    else .error "No camera token available (neither in payload nor CAMERA_TOKEN env) and camera_info not in payload"

/-- The saveFrame argument assembled from a validated frame (ingest.ts lines
77 to 95 and admin.ts lines 89 to 107, identical field mapping). -/
def toSaveParams (f : FramePayload) : SaveFrameParams :=
  ⟨f.fram_id, f.cam_id, f.token_id.camera_info.name, f.token_id.camera_info.sort,
    f.token_id.camera_info.location, f.token_id.camera_info.institute,
    f.timestamp, f.image_info.width, f.image_info.height,
    f.objects.map (fun o => ⟨o.obj_id, o.type, o.lat, o.lng, o.alt, o.speed_kt⟩)⟩

/-- The broadcast payload assembled from a validated frame (ingest.ts lines
98 to 105). -/
def toBusMsg (f : FramePayload) : BusMsg :=
  ⟨f.fram_id, f.cam_id, f.token_id, f.timestamp, f.image_info, f.objects⟩

/-- Validation, persistence, broadcast and the final raw log update, shared
tail of the bus handler once an enriched payload exists (ingest.ts lines 73
to 108). A failing saveFrame throws into the catch branch. -/
def processEnriched (env : Env) (ep : Json) : List Event :=
  match frameSchemaParse ep with
  | none => [.rawMarkedFailed "frame validation failed"]
  | some frame =>
    if env.persistOk then
      [.persistFrame (toSaveParams frame), .busBroadcast (toBusMsg frame), .rawMarkedOk]
    else [.rawMarkedFailed "saveFrame failed"]

/-- Is a JSON value the null literal (destructuring null throws in JS). -/
def Json.isNull : Json → Bool
  | .null => true
  | _ => false

/-- Processing of a parsed frame-topic payload (ingest.ts lines 28 to 109):
destructure (throws on null), guard fram_id and cam_id truthiness, enrich,
then validate, persist, broadcast and mark the raw message. Every throw is
caught by the handler catch branch, which marks the raw message failed. -/
def ingestFrame (env : Env) (json : Json) : List Event :=
  if json.isNull then [.rawMarkedFailed "cannot destructure null payload"]
  else
    if ¬ truthy (jget json "fram_id") ∨ ¬ truthy (jget json "cam_id") then
      [.rawMarkedFailed "fram_id and cam_id are required in frame message"]
    else
      match computeEnriched env json with
      | .error msg => [.rawMarkedFailed msg]
      | .ok ep => processEnriched env ep

/-- The bus message handler (ingest.ts lines 18 to 116). The raw message is
saved first; only messages on the frame topic are processed further; parsed
is the outcome of JSON.parse on the payload text (none models a parse
throw). The handler never rethrows: every failure ends in the catch branch
marking the raw message failed, and the worker proceeds to the next
message. -/
def ingestHandler (env : Env) (topic text : String) (parsed : Option Json) : List Event :=
  .rawReceived topic text ::
    (if topic = env.topicFrame then
      match parsed with
      | none => [.rawMarkedFailed "JSON parse error"]
      | some json => ingestFrame env json
    else [])

/-- Per-connection state of a device (pi) session in the WebSocket server:
the connection parameters and the buffered metadata awaiting its binary
companion. The cam_id and token query parameters go through an or-undefined
coercion at connection setup, so an empty string is already none here. -/
structure DevConn where
  camId : Option String
  token : Option String
  pendingMetadata : Option FramePayload
  deriving DecidableEq

/-- One inbound device message, discriminated by the source on the first
byte of the data (0x7b or 0x22 selects the JSON branch): text carries the
JSON.parse outcome of the bytes (none models a parse throw), binary carries
the raw image bytes. -/
inductive DevMsg where
  | text (parsed : Option Json)
  | binary (data : List Nat)

/-- Does the session attempt the camera-info fetch for a completed frame
(the cam_id and token guard in the binary branch). -/
def devEnrichAttempt (c : DevConn) : Bool := c.camId.isSome && c.token.isSome

/-- The meta object broadcast for a completed device frame: the buffered
metadata, with token_id replaced by the fetched camera info when the fetch
was attempted and succeeded (fetchCameraInfo returns null on failure, which
leaves the embedded token_id in place). -/
def devMergedMeta (api : Option CameraInfo) (c : DevConn) (meta : FramePayload) : FramePayload :=
  match (if devEnrichAttempt c then api else none) with
  | some ci => { meta with token_id := ⟨ci⟩ }
  | none => meta

/-- One step of the device session message handler (the ws.on message
handler of the WebSocket server, pi role). A JSON message that validates is
buffered as pendingMetadata, overwriting any unconsumed one; an invalid JSON
message is caught and logged, leaving the buffer as it was. A binary message
without buffered metadata is discarded with a warning; otherwise the buffer
is cleared, camera info is fetched when the connection carries cam_id and
token, and the completed frame is broadcast to the viewers. api is the
outcome of the camera-info fetch (none models any failure). -/
def deviceStep (api : Option CameraInfo) (c : DevConn) : DevMsg → DevConn × List Event
  | .text none => (c, [.devErrorLogged])
  | .text (some j) =>
    match frameSchemaParse j with
    | some meta => ({ c with pendingMetadata := some meta }, [])
    | none => (c, [.devErrorLogged])
  | .binary data =>
    match c.pendingMetadata with
    | none => (c, [.devWarnNoMetadata])
    | some meta =>
      ({ c with pendingMetadata := none },
        (if devEnrichAttempt c then [.devEnrichCall] else [])
          ++ [.devBroadcast ⟨"frame", devMergedMeta api c meta, base64Encode data⟩])

/-- A device session consuming a message sequence, accumulating the trace. -/
def deviceRun (api : Option CameraInfo) (c : DevConn) : List DevMsg → DevConn × List Event
  | [] => (c, [])
  | msg :: rest =>
    let (c', evs) := deviceStep api c msg
    let (c'', evs') := deviceRun api c' rest
    (c'', evs ++ evs')

/-- A viewer connection as the broadcast loop observes it: an identifier,
whether its readyState is OPEN, and whether its send call throws. -/
structure Viewer where
  id : Nat
  isOpen : Bool
  sendFails : Bool
  deriving DecidableEq

/-- Result of one broadcast call: which members received the serialized
message, which members threw on send (the error is caught and logged), and
the membership set after the call. -/
structure HubResult where
  delivered : List (Nat × String)
  sendErrors : List Nat
  members : List Viewer
  deriving DecidableEq

/-- The for-of loop over viewerClients inside broadcast: skip members whose
readyState is not OPEN, send to the rest, catching and logging a throwing
send. Returns the deliveries and the caught errors in iteration order. -/
def sendLoop (msg : String) : List Viewer → List (Nat × String) × List Nat
  | [] => ([], [])
  | v :: rest =>
    let (d, e) := sendLoop msg rest
    if v.isOpen then
      if v.sendFails then (d, v.id :: e) else ((v.id, msg) :: d, e)
    else (d, e)

/-- broadcast of the WebSocket hub: serialize the payload once
(JSON.stringify, supplied here as the serializer of the payload type), then
loop over the current members. The membership set is not modified by the
loop; a close event, not a send failure, is what removes a member. -/
def wsBroadcast {α : Type} (serialize : α → String) (members : List Viewer) (payload : α) : HubResult :=
  let msg := serialize payload
  let (d, e) := sendLoop msg members
  ⟨d, e, members⟩

/-- A raw message record as the reprocess route reads it back:
payloadParse is the outcome of JSON.parse on the stored payload text (none
models a stored text that is not valid JSON). -/
structure RawRec where
  payloadParse : Option Json

/-- Raw message lookup by identifier (getRawById through the store). -/
def lookupRaw : List (Nat × RawRec) → Nat → Option RawRec
  | [], _ => none
  | (k, r) :: rest, key => if k = key then some r else lookupRaw rest key

/-- JS double spread of json then patch, as an object field list: the fields
contributed by json, each overridden by a same-named patch field, followed
by the patch fields that introduce new keys. -/
def spreadMerge (a b : List (String × Json)) : List (String × Json) :=
  (a.map (fun kv =>
    match jlookup b kv.1 with
    | some v => (kv.1, v)
    | none => kv))
    ++ b.filter (fun kv => (jlookup a kv.1).isNone)

/-- The patched document of the reprocess route: the spread of the parsed
payload followed by the spread of the patch object. -/
def patchedDoc (json : Json) (patch : List (String × Json)) : Json :=
  .obj (spreadMerge (toSpreadFields json) patch)

/-- Result of the reprocess route, mirroring its HTTP responses. -/
inductive ReprocessOutcome where
  | notFound
  | invalidRawJson
  | badRequest (msg : String)
  | saved (id : Nat)
  deriving DecidableEq

/-- POST /admin/reprocess/:rawId (src/routes/admin.ts lines 77 to 112): look
up the raw message, parse its stored payload, apply the optional set patch
as a shallow spread overwrite, re-validate with frameSchema, and persist via
saveFrame on success. persistOk models the saveFrame outcome and newId the
storage identifier it returns; a patch of none models an absent set field
(the empty patch). The route never touches the broadcast hub. -/
def reprocess (store : List (Nat × RawRec)) (persistOk : Bool) (newId : Nat)
    (rawId : Nat) (patch : Option (List (String × Json))) : ReprocessOutcome × List Event :=
  match lookupRaw store rawId with
  | none => (.notFound, [])
  | some raw =>
    match raw.payloadParse with
    | none => (.invalidRawJson, [])
    | some json =>
      match frameSchemaParse (patchedDoc json (patch.getD [])) with
      | none => (.badRequest "validation failed", [])
      | some frame =>
        if persistOk then (.saved newId, [.persistFrame (toSaveParams frame)])
        else (.badRequest "saveFrame failed", [])

/-- Camera info a payload carries embedded under token_id. -/
def embeddedInfo : CameraInfo := ⟨"Embedded Cam", "E", "Field", "CRMA"⟩

/-- Camera info the external metadata API resolves. -/
def apiInfo : CameraInfo := ⟨"API Cam", "B", "HQ", "TESA"⟩

/-- One well-formed detected object on the wire. -/
def sampleObjJson : Json :=
  .obj [("obj_id", .str "O1"), ("lat", .num ⟨1375, -2⟩), ("lng", .num ⟨10050, -2⟩),
    ("alt", .num ⟨50, 0⟩), ("speed_kt", .num ⟨15, 0⟩)]

/-- The parsed form of sampleObjJson. -/
def sampleObj : DetectedObject := ⟨"O1", none, ⟨1375, -2⟩, ⟨10050, -2⟩, ⟨50, 0⟩, ⟨15, 0⟩⟩

/-- The field list of a well-formed bus payload with an embedded camera_info. -/
def sampleFields : List (String × Json) :=
  [("fram_id", .str "1"), ("cam_id", .str "CAM1"),
    ("token_id", tokenIdJson embeddedInfo), ("timestamp", .num ⟨1704067200000, 0⟩),
    ("image_info", .obj [("width", .num ⟨1920, 0⟩), ("height", .num ⟨1080, 0⟩)]),
    ("objects", .arr [sampleObjJson])]

/-- A well-formed bus payload with an embedded camera_info. -/
def sampleJson : Json := .obj sampleFields

/-- The parsed form of sampleJson. -/
def sampleFrame : FramePayload :=
  ⟨"1", "CAM1", ⟨embeddedInfo⟩, 1704067200000, ⟨1920, 1080⟩, [sampleObj]⟩

/-- A second well-formed metadata payload, distinct from sampleJson. -/
def sampleJson2 : Json :=
  .obj [("fram_id", .str "2"), ("cam_id", .str "CAM1"),
    ("token_id", tokenIdJson embeddedInfo), ("timestamp", .num ⟨1704067260000, 0⟩),
    ("image_info", .obj [("width", .num ⟨1920, 0⟩), ("height", .num ⟨1080, 0⟩)]),
    ("objects", .arr [])]

/-- The parsed form of sampleJson2. -/
def sampleFrame2 : FramePayload :=
  ⟨"2", "CAM1", ⟨embeddedInfo⟩, 1704067260000, ⟨1920, 1080⟩, []⟩

/-- An environment with a configured CAMERA_TOKEN, a succeeding camera-info
API and a healthy database. -/
def sampleEnv : Env := ⟨"drones/frames", "tok", some apiInfo, true⟩

/-- Like sampleEnv but the camera-info API call fails. -/
def sampleEnvApiDown : Env := ⟨"drones/frames", "tok", none, true⟩

/-- The enriched payload computeEnriched produces from sampleJson under
sampleEnv: token_id is removed by the rest destructuring and re-appended
with the API camera info. -/
def sampleEnriched : Json :=
  .obj [("fram_id", .str "1"), ("cam_id", .str "CAM1"),
    ("timestamp", .num ⟨1704067200000, 0⟩),
    ("image_info", .obj [("width", .num ⟨1920, 0⟩), ("height", .num ⟨1080, 0⟩)]),
    ("objects", .arr [sampleObjJson]), ("token_id", tokenIdJson apiInfo)]

/-- The parsed form of sampleEnriched. -/
def sampleEnrichedFrame : FramePayload :=
  ⟨"1", "CAM1", ⟨apiInfo⟩, 1704067200000, ⟨1920, 1080⟩, [sampleObj]⟩

/-- sampleJson with the lat of its only object given as the string 13.75abc,
which is not a numeric string. -/
def suffixLatJson : Json :=
  .obj [("fram_id", .str "1"), ("cam_id", .str "CAM1"),
    ("token_id", tokenIdJson embeddedInfo), ("timestamp", .num ⟨1704067200000, 0⟩),
    ("image_info", .obj [("width", .num ⟨1920, 0⟩), ("height", .num ⟨1080, 0⟩)]),
    ("objects", .arr [.obj [("obj_id", .str "O1"), ("lat", .str "13.75abc"),
      ("lng", .num ⟨10050, -2⟩), ("alt", .num ⟨50, 0⟩), ("speed_kt", .num ⟨15, 0⟩)]])]

/-- The frame the validator produces from suffixLatJson: the lat string is
coerced to 13.75 by the parseFloat preprocess. -/
def suffixLatFrame : FramePayload :=
  ⟨"1", "CAM1", ⟨embeddedInfo⟩, 1704067200000, ⟨1920, 1080⟩,
    [⟨"O1", none, ⟨1375, -2⟩, ⟨10050, -2⟩, ⟨50, 0⟩, ⟨15, 0⟩⟩]⟩

/-- sampleJson with a JSON number as fram_id. -/
def numericFramIdJson : Json :=
  .obj [("fram_id", .num ⟨42, 0⟩), ("cam_id", .str "CAM1"),
    ("token_id", tokenIdJson embeddedInfo), ("timestamp", .num ⟨1704067200000, 0⟩),
    ("image_info", .obj [("width", .num ⟨1920, 0⟩), ("height", .num ⟨1080, 0⟩)]),
    ("objects", .arr [sampleObjJson])]

/-- A device session with no connection parameters and no buffered
metadata. -/
def sampleConn : DevConn := ⟨none, none, none⟩

/-- A device session holding a buffered metadata message. -/
def sampleConnPending : DevConn := ⟨none, none, some sampleFrame⟩

/-- A viewer whose send call throws. -/
def viewerFailing : Viewer := ⟨1, true, true⟩

/-- A healthy open viewer. -/
def viewerHealthy : Viewer := ⟨2, true, false⟩

/-- A raw message store holding the sample payload under id 7. -/
def sampleStore : List (Nat × RawRec) := [(7, ⟨some sampleJson⟩)]

theorem parseObjects_length (xs : List Json) (os : List DetectedObject)
    (h : parseObjects xs = some os) : os.length = xs.length := by
  induction xs generalizing os with
  | nil => simp [parseObjects] at h; simp [← h]
  | cons x rest ih =>
    unfold parseObjects at h
    cases hx : parseDetectedObject x with
    | none => rw [hx] at h; exact absurd h (by simp)
    | some o =>
      cases hr : parseObjects rest with
      | none => rw [hx, hr] at h; exact absurd h (by simp)
      | some os' =>
        rw [hx, hr] at h
        cases h
        simp [ih os' hr]

theorem zString_str (v : Json) (s : String) (h : zString v = some s) : v = .str s := by
  cases v <;> simp [zString] at h
  simp [h]

theorem frameSchemaParse_fields (j : Json) (f : FramePayload)
    (h : frameSchemaParse j = some f) :
    ∃ fs, j = .obj fs
      ∧ jlookup fs "fram_id" = some (.str f.fram_id)
      ∧ ∃ xs, jlookup fs "objects" = some (.arr xs) ∧ parseObjects xs = some f.objects := by
  cases j with
  | obj fs =>
    refine ⟨fs, rfl, ?_⟩
    cases hfid : (jlookup fs "fram_id").bind zString with
    | none => simp only [frameSchemaParse, hfid] at h; exact Option.noConfusion h
    | some fid =>
    cases hcid : (jlookup fs "cam_id").bind zStringMin1 with
    | none => simp only [frameSchemaParse, hfid, hcid] at h; exact Option.noConfusion h
    | some cid =>
    cases htid : (jlookup fs "token_id").bind parseTokenId with
    | none => simp only [frameSchemaParse, hfid, hcid, htid] at h; exact Option.noConfusion h
    | some tid =>
    cases hts : (jlookup fs "timestamp").bind coerceDate with
    | none => simp only [frameSchemaParse, hfid, hcid, htid, hts] at h; exact Option.noConfusion h
    | some ts =>
    cases hii : (jlookup fs "image_info").bind parseImageInfo with
    | none => simp only [frameSchemaParse, hfid, hcid, htid, hts, hii] at h; exact Option.noConfusion h
    | some ii =>
    cases hobjs : (jlookup fs "objects").bind parseObjectsField with
    | none => simp only [frameSchemaParse, hfid, hcid, htid, hts, hii, hobjs] at h; exact Option.noConfusion h
    | some objs =>
    simp only [frameSchemaParse, hfid, hcid, htid, hts, hii, hobjs, Option.some.injEq] at h
    subst h
    rcases Option.bind_eq_some.mp hfid with ⟨v, hv, hvs⟩
    rcases Option.bind_eq_some.mp hobjs with ⟨w, hw, hws⟩
    have hvstr := zString_str v _ hvs
    subst hvstr
    refine ⟨hv, ?_⟩
    cases w with
    | arr xs => exact ⟨xs, hw, hws⟩
    | null => simp [parseObjectsField] at hws
    | bool b => simp [parseObjectsField] at hws
    | num d => simp [parseObjectsField] at hws
    | str s => simp [parseObjectsField] at hws
    | obj fs' => simp [parseObjectsField] at hws
  | null => simp [frameSchemaParse] at h
  | bool b => simp [frameSchemaParse] at h
  | num d => simp [frameSchemaParse] at h
  | str s => simp [frameSchemaParse] at h
  | arr xs => simp [frameSchemaParse] at h

theorem jlookup_removeKey_ne (fs : List (String × Json)) (k key : String)
    (h : ¬ key = k) : jlookup (removeKey fs k) key = jlookup fs key := by
  induction fs with
  | nil => rfl
  | cons kv rest ih =>
    cases kv with
    | mk k0 v0 =>
      by_cases hk : k0 = k
      · subst hk
        have hne : ¬ k0 = key := fun hc => h hc.symm
        simp [removeKey, List.filter, jlookup, hne] at ih ⊢
        exact ih
      · by_cases hkey : k0 = key
        · simp [removeKey, List.filter, jlookup, hk, hkey, h]
        · simp [removeKey, List.filter, jlookup, hk, hkey] at ih ⊢
          exact ih

theorem jlookup_map_setKey_ne (gs : List (String × Json)) (k key : String) (v : Json)
    (h : ¬ key = k) :
    jlookup (gs.map (fun kv => if kv.1 = k then (k, v) else kv)) key = jlookup gs key := by
  induction gs with
  | nil => rfl
  | cons kv rest ih =>
    cases kv with
    | mk k0 v0 =>
      simp only [List.map_cons]
      by_cases hk : (k0, v0).1 = k
      · rw [if_pos hk]
        have hk' : k0 = k := hk
        have hne : ¬ k = key := fun hc => h hc.symm
        have hne0 : ¬ k0 = key := by rw [hk']; exact hne
        simp [jlookup, hne, hne0]
        exact ih
      · rw [if_neg hk]
        have hk' : ¬ k0 = k := hk
        by_cases hkey : k0 = key
        · simp [jlookup, hkey]
        · simp [jlookup, hkey]
          exact ih

theorem jlookup_append_single_ne (fs : List (String × Json)) (k key : String) (v : Json)
    (h : ¬ key = k) : jlookup (fs ++ [(k, v)]) key = jlookup fs key := by
  induction fs with
  | nil =>
    have hne : ¬ k = key := fun hc => h hc.symm
    simp [jlookup, hne]
  | cons kv rest ih =>
    cases kv with
    | mk k0 v0 =>
      by_cases hkey : k0 = key
      · simp [jlookup, hkey]
      · simp [jlookup, hkey]
        exact ih

theorem jlookup_spreadSet_ne (fs : List (String × Json)) (k key : String) (v : Json)
    (h : ¬ key = k) : jlookup (spreadSet fs k v) key = jlookup fs key := by
  unfold spreadSet
  by_cases hs : (jlookup fs k).isSome
  · simp only [hs, if_true]
    exact jlookup_map_setKey_ne fs k key v h
  · simp only [hs, if_false]
    exact jlookup_append_single_ne fs k key v h

theorem mapCameraInfo_ok_shape (env : Env) (gs : List (String × Json)) (token : String)
    (ep : Json) (h : mapCameraInfo env (.obj gs) token = .ok ep) :
    ∃ ci, env.apiCameraInfo = some ci ∧ ep = .obj (spreadSet gs "token_id" (tokenIdJson ci)) := by
  unfold mapCameraInfo at h
  split at h
  · exact absurd h (by simp)
  · split at h
    · exact absurd h (by simp)
    · split at h
      · exact absurd h (by simp)
      · rename_i ci hci
        simp only [toSpreadFields, Except.ok.injEq] at h
        exact ⟨ci, hci, h.symm⟩

theorem computeEnriched_ok_cases (env : Env) (json ep : Json)
    (h : computeEnriched env json = .ok ep) :
    ep = json ∨ ∃ ci, env.apiCameraInfo = some ci ∧
      ep = .obj (spreadSet (removeKey (toSpreadFields json) "token_id") "token_id" (tokenIdJson ci)) := by
  simp only [computeEnriched] at h
  split at h
  · split at h
    · rename_i ep0 heq
      rcases mapCameraInfo_ok_shape env _ _ ep0 heq with ⟨ci, hci, hep⟩
      simp only [Except.ok.injEq] at h
      exact Or.inr ⟨ci, hci, by rw [← h, hep]⟩
    · split at h
      · simp only [Except.ok.injEq] at h
        exact Or.inl h.symm
      · exact absurd h (by simp)
  · split at h
    · simp only [Except.ok.injEq] at h
      exact Or.inl h.symm
    · exact absurd h (by simp)

theorem computeEnriched_preserves_key (env : Env) (fs : List (String × Json)) (ep : Json)
    (key : String) (hk : ¬ key = "token_id")
    (h : computeEnriched env (.obj fs) = .ok ep) : jget ep key = jlookup fs key := by
  rcases computeEnriched_ok_cases env (.obj fs) ep h with he | ⟨ci, _, he⟩
  · rw [he]; rfl
  · rw [he]
    show jlookup (spreadSet (removeKey (toSpreadFields (.obj fs)) "token_id") "token_id" (tokenIdJson ci)) key = jlookup fs key
    rw [jlookup_spreadSet_ne _ _ _ _ hk, jlookup_removeKey_ne _ _ _ hk]
    rfl

theorem sendLoop_spec (msg : String) (ms : List Viewer) :
    sendLoop msg ms =
      ((ms.filter (fun v => v.isOpen && !v.sendFails)).map (fun v => (v.id, msg)),
       (ms.filter (fun v => v.isOpen && v.sendFails)).map (fun v => v.id)) := by
  induction ms with
  | nil => rfl
  | cons v rest ih =>
    cases ho : v.isOpen with
    | false => simp [sendLoop, ih, List.filter, ho]
    | true =>
      cases hf : v.sendFails with
      | false => simp [sendLoop, ih, List.filter, ho, hf]
      | true => simp [sendLoop, ih, List.filter, ho, hf]

theorem processEnriched_shape (env : Env) (ep : Json) :
    (∃ r, processEnriched env ep = [.rawMarkedFailed r])
    ∨ (∃ f, frameSchemaParse ep = some f ∧ env.persistOk = true ∧
        processEnriched env ep =
          [.persistFrame (toSaveParams f), .busBroadcast (toBusMsg f), .rawMarkedOk]) := by
  cases hp : frameSchemaParse ep with
  | none => exact Or.inl ⟨"frame validation failed", by simp [processEnriched, hp]⟩
  | some f =>
    cases hper : env.persistOk with
    | false => exact Or.inl ⟨"saveFrame failed", by simp [processEnriched, hp, hper]⟩
    | true => exact Or.inr ⟨f, rfl, rfl, by simp [processEnriched, hp, hper]⟩

theorem ingestFrame_shape (env : Env) (json : Json) :
    (∃ r, ingestFrame env json = [.rawMarkedFailed r])
    ∨ (∃ f, env.persistOk = true ∧
        ingestFrame env json =
          [.persistFrame (toSaveParams f), .busBroadcast (toBusMsg f), .rawMarkedOk]) := by
  by_cases hn : json.isNull = true
  · exact Or.inl ⟨"cannot destructure null payload", by simp [ingestFrame, hn]⟩
  · by_cases hfid : truthy (jget json "fram_id") = true
    · by_cases hcid : truthy (jget json "cam_id") = true
      · cases he : computeEnriched env json with
        | error msg => exact Or.inl ⟨msg, by simp [ingestFrame, hn, hfid, hcid, he]⟩
        | ok ep =>
          rcases processEnriched_shape env ep with ⟨r, hr⟩ | ⟨f, _, hper, hp⟩
          · exact Or.inl ⟨r, by simp [ingestFrame, hn, hfid, hcid, he, hr]⟩
          · exact Or.inr ⟨f, hper, by simp [ingestFrame, hn, hfid, hcid, he, hp]⟩
      · exact Or.inl ⟨"fram_id and cam_id are required in frame message",
          by simp [ingestFrame, hn, hcid]⟩
    · exact Or.inl ⟨"fram_id and cam_id are required in frame message",
        by simp [ingestFrame, hn, hfid]⟩

theorem jlookup_map_override (a b : List (String × Json)) (k : String) :
    jlookup (a.map (fun kv =>
        match jlookup b kv.1 with
        | some v => (kv.1, v)
        | none => kv)) k
      = match jlookup a k with
        | some v =>
          match jlookup b k with
          | some w => some w
          | none => some v
        | none => none := by
  induction a with
  | nil => rfl
  | cons kv rest ih =>
    cases kv with
    | mk k0 v0 =>
      by_cases hk : k0 = k
      · subst hk
        cases hb : jlookup b k0 <;> simp [jlookup, hb]
      · cases hb : jlookup b k0 <;> simp [jlookup, hb, hk, ih]

theorem jlookup_filter_newKeys (a b : List (String × Json)) (k : String) :
    jlookup (b.filter (fun kv => (jlookup a kv.1).isNone)) k
      = if (jlookup a k).isNone then jlookup b k else none := by
  induction b with
  | nil => simp [jlookup]
  | cons kv rest ih =>
    cases kv with
    | mk k0 v0 =>
      by_cases hk : k0 = k
      · subst hk
        cases ha : (jlookup a k0).isNone <;> simp [List.filter, jlookup, ha, ih]
      · cases ha0 : (jlookup a k0).isNone <;> simp [List.filter, jlookup, ha0, hk, ih]

theorem jlookup_append (x y : List (String × Json)) (k : String) :
    jlookup (x ++ y) k
      = match jlookup x k with
        | some v => some v
        | none => jlookup y k := by
  induction x with
  | nil => rfl
  | cons kv rest ih =>
    cases kv with
    | mk k0 v0 => by_cases hk : k0 = k <;> simp [jlookup, hk, ih]

theorem jlookup_spreadMerge (a b : List (String × Json)) (k : String) :
    jlookup (spreadMerge a b) k
      = match jlookup b k with
        | some v => some v
        | none => jlookup a k := by
  unfold spreadMerge
  rw [jlookup_append, jlookup_map_override]
  cases ha : jlookup a k <;> cases hb : jlookup b k <;>
    simp [jlookup_filter_newKeys, ha, hb]

/-- Claim C1 counterexample: in the device session, a binary message paired
with buffered metadata produces exactly one broadcast event and zero calls
to the persistence layer, whereas the claim requires the completed frame to
be persisted via the same saveFrame call used by the bus path. -/
theorem device_binary_no_persist_counterexample :
    (deviceStep none sampleConnPending (.binary [255, 0])).2
        = [.devBroadcast ⟨"frame", sampleFrame, "/wA="⟩]
      ∧ persistCount (deviceStep none sampleConnPending (.binary [255, 0])).2 = 0 := by
  exact ⟨rfl, rfl⟩

/-- Claim C1 (amended): in a device streaming session, a binary message with
no pending metadata is discarded with a warning, producing no frame, no
enrichment call and no broadcast; a binary message with pending metadata
clears the buffer, optionally calls enrichment, and broadcasts the
completed frame (buffered metadata plus the binary payload as base64 image)
to the viewers, but the device path never calls the saveFrame persistence
used by the bus path. -/
theorem device_binary_message_behavior (api : Option CameraInfo) (c : DevConn) (data : List Nat) :
    (c.pendingMetadata = none →
      deviceStep api c (.binary data) = (c, [.devWarnNoMetadata]))
    ∧ ∀ m, c.pendingMetadata = some m →
        deviceStep api c (.binary data)
            = ({ c with pendingMetadata := none },
              (if devEnrichAttempt c then [.devEnrichCall] else [])
                ++ [.devBroadcast ⟨"frame", devMergedMeta api c m, base64Encode data⟩])
          ∧ persistCount (deviceStep api c (.binary data)).2 = 0 := by
  constructor
  · intro h
    simp [deviceStep, h]
  · intro m h
    by_cases hd : devEnrichAttempt c = true
    · constructor
      · simp [deviceStep, h, hd]
      · simp [deviceStep, h, hd, persistCount, Event.isPersist]
    · constructor
      · simp [deviceStep, h, hd]
      · simp [deviceStep, h, hd, persistCount, Event.isPersist]

/-- Claim C1 (amended) witness at a concrete session and binary payload. -/
theorem device_binary_message_behavior_witness :
    deviceStep none sampleConnPending (.binary [1, 2, 3])
      = (⟨none, none, none⟩,
         [.devBroadcast ⟨"frame", sampleFrame, base64Encode [1, 2, 3]⟩]) :=
  ((device_binary_message_behavior none sampleConnPending [1, 2, 3]).2 sampleFrame rfl).1

/-- Claim C6: a metadata message that validates always overwrites the
buffered pendingMetadata (last-wins); after metadata then metadata with no
binary in between, the buffer holds the second metadata only, and the frame
broadcast when a binary message finally arrives is built from the second
metadata alone, with exactly one broadcast emitted. -/
theorem device_metadata_last_wins (api : Option CameraInfo) (c : DevConn) (j1 j2 : Json)
    (m1 m2 : FramePayload) (data : List Nat)
    (h1 : frameSchemaParse j1 = some m1) (h2 : frameSchemaParse j2 = some m2) :
    (deviceStep api c (.text (some j1))).1.pendingMetadata = some m1
    ∧ (deviceRun api c [.text (some j1), .text (some j2)]).1.pendingMetadata = some m2
    ∧ deviceRun api c [.text (some j1), .text (some j2), .binary data]
        = ({ c with pendingMetadata := none },
          (if devEnrichAttempt c then [.devEnrichCall] else [])
            ++ [.devBroadcast ⟨"frame", devMergedMeta api c m2, base64Encode data⟩]) := by
  refine ⟨?_, ?_, ?_⟩
  · simp [deviceStep, h1]
  · simp [deviceRun, deviceStep, h1, h2]
  · simp [deviceRun, deviceStep, h1, h2, devEnrichAttempt, devMergedMeta]

/-- Claim C6 witness at two concrete metadata payloads and a binary
message. -/
theorem device_metadata_last_wins_witness :
    deviceRun none sampleConn [.text (some sampleJson), .text (some sampleJson2), .binary [255, 0]]
      = (⟨none, none, none⟩, [.devBroadcast ⟨"frame", sampleFrame2, "/wA="⟩]) :=
  (device_metadata_last_wins none sampleConn sampleJson sampleJson2 sampleFrame sampleFrame2
    [255, 0] rfl rfl).2.2

/-- Claim C7 counterexample: broadcasting to a member whose send throws
catches and logs the error but leaves that member in the membership set
(the claim requires the failing member to be removed); the other member
still receives the once-serialized event. -/
theorem broadcast_failed_member_kept_counterexample :
    (wsBroadcast (fun _ : Nat => "event") [viewerFailing, viewerHealthy] 0).members
        = [viewerFailing, viewerHealthy]
      ∧ (wsBroadcast (fun _ : Nat => "event") [viewerFailing, viewerHealthy] 0).sendErrors = [1]
      ∧ (wsBroadcast (fun _ : Nat => "event") [viewerFailing, viewerHealthy] 0).delivered
        = [(2, "event")] :=
  ⟨rfl, rfl, rfl⟩

/-- Claim C7 (amended): broadcast serializes the event once and attempts a
send to every current member whose readyState is OPEN; a member whose send
throws has the error caught and logged and remains in the membership set,
every other OPEN member still receives the identical serialized event, and
no error is raised to the caller (the membership set after the call is
exactly the set before it). -/
theorem broadcast_failure_isolated {α : Type} (serialize : α → String)
    (members : List Viewer) (payload : α) :
    (wsBroadcast serialize members payload).delivered
        = (members.filter (fun v => v.isOpen && !v.sendFails)).map
            (fun v => (v.id, serialize payload))
      ∧ (wsBroadcast serialize members payload).sendErrors
        = (members.filter (fun v => v.isOpen && v.sendFails)).map (fun v => v.id)
      ∧ (wsBroadcast serialize members payload).members = members := by
  refine ⟨?_, ?_, rfl⟩ <;> simp [wsBroadcast, sendLoop_spec]

/-- Claim C10: the broadcast function is total and never throws: it attempts
a send only on members whose readyState is OPEN, silently skipping the
others while leaving them in the membership set; an exception from one send
is caught (recorded in sendErrors), delivery to the remaining OPEN members
still happens, and the membership set is unchanged. -/
theorem broadcast_total_and_skips_non_open {α : Type} (serialize : α → String)
    (members : List Viewer) (payload : α)
    (hid : (members.map Viewer.id).Nodup) :
    (wsBroadcast serialize members payload).members = members
    ∧ (∀ v ∈ members, v.isOpen = false →
        (∀ s, (v.id, s) ∉ (wsBroadcast serialize members payload).delivered)
        ∧ v.id ∉ (wsBroadcast serialize members payload).sendErrors)
    ∧ (∀ v ∈ members, v.isOpen = true → v.sendFails = true →
        v.id ∈ (wsBroadcast serialize members payload).sendErrors)
    ∧ (∀ v ∈ members, v.isOpen = true → v.sendFails = false →
        (v.id, serialize payload) ∈ (wsBroadcast serialize members payload).delivered) := by
  have hres : wsBroadcast serialize members payload
      = ⟨(members.filter (fun v => v.isOpen && !v.sendFails)).map
            (fun v => (v.id, serialize payload)),
          (members.filter (fun v => v.isOpen && v.sendFails)).map (fun v => v.id),
          members⟩ := by
    simp [wsBroadcast, sendLoop_spec]
  refine ⟨by rw [hres], ?_, ?_, ?_⟩
  · intro v hv ho
    rw [hres]
    constructor
    · intro s hs
      simp only [List.mem_map, List.mem_filter] at hs
      rcases hs with ⟨w, ⟨hw, hwp⟩, hweq⟩
      have hwid : w.id = v.id := congrArg Prod.fst hweq
      have : w = v := List.inj_on_of_nodup_map hid hw hv hwid
      subst this
      rw [ho] at hwp
      simp at hwp
    · intro hs
      simp only [List.mem_map, List.mem_filter] at hs
      rcases hs with ⟨w, ⟨hw, hwp⟩, hweq⟩
      have : w = v := List.inj_on_of_nodup_map hid hw hv hweq
      subst this
      rw [ho] at hwp
      simp at hwp
  · intro v hv ho hf
    rw [hres]
    simp only [List.mem_map, List.mem_filter]
    exact ⟨v, ⟨hv, by simp [ho, hf]⟩, rfl⟩
  · intro v hv ho hf
    rw [hres]
    simp only [List.mem_map, List.mem_filter]
    exact ⟨v, ⟨hv, by simp [ho, hf]⟩, rfl⟩

/-- Claim C10 witness at a concrete member list with one failing and one
healthy viewer. -/
theorem broadcast_total_and_skips_non_open_witness :
    (viewerHealthy.id, "event") ∈
      (wsBroadcast (fun _ : Nat => "event") [viewerFailing, viewerHealthy] 5).delivered :=
  (broadcast_total_and_skips_non_open (fun _ : Nat => "event") [viewerFailing, viewerHealthy] 5
    (by decide)).2.2.2 viewerHealthy (by decide) rfl rfl

theorem parseObjects_none_of_mem (xs : List Json) (x : Json) (hx : x ∈ xs)
    (h : parseDetectedObject x = none) : parseObjects xs = none := by
  induction xs with
  | nil => cases hx
  | cons y rest ih =>
    cases hx with
    | head => simp [parseObjects, h]
    | tail _ hmem =>
      cases hy : parseDetectedObject y <;> simp [parseObjects, hy, ih hmem]

/-- Claim C4 counterexample: the payload whose lat field is the string
13.75abc — not a numeric string — nevertheless validates, the lat being
coerced by parseFloat to the numeric prefix 13.75 (value 55/4), whereas the
claim requires any non-numeric string to fail validation of the whole
frame. -/
theorem validator_accepts_nonnumeric_suffix_string :
    frameSchemaParse suffixLatJson = some suffixLatFrame
      ∧ suffixLatFrame.objects.map DetectedObject.lat = [⟨1375, -2⟩]
      ∧ Dec.toRat ⟨1375, -2⟩ = 55 / 4 := by
  refine ⟨rfl, rfl, ?_⟩
  rw [Dec.toRat]
  norm_num

/-- Claim C4 (amended): a float field (lat, lng, alt, speed_kt) accepts a
JSON number, and accepts a string exactly when parseFloat finds a numeric
prefix (coercing to that prefix, so numeric strings validate to their
value but strings with a numeric prefix and trailing garbage validate
too); booleans, null, arrays, objects and strings with no numeric prefix
fail. An integer field (width, height) accepts integral numbers and
parseInt-coercible strings. A failing field fails its detected object, a
failing object fails the whole frame, and a frame that fails validation on
the bus path is marked failed and is neither persisted nor broadcast. -/
theorem validator_numeric_field_semantics :
    (∀ d, zNum (.num d) = some d)
    ∧ (∀ s, zNum (.str s) = parseFloatJS s)
    ∧ (∀ b, zNum (.bool b) = none)
    ∧ zNum .null = none
    ∧ (∀ xs, zNum (.arr xs) = none)
    ∧ (∀ gs, zNum (.obj gs) = none)
    ∧ (∀ d, zInt (.num d) = if d.isInt then some d.toInt else none)
    ∧ (∀ s, zInt (.str s) = parseIntJS s)
    ∧ (∀ b, zInt (.bool b) = none)
    ∧ (∀ gs v, jlookup gs "lat" = some v → zNum v = none →
        parseDetectedObject (.obj gs) = none)
    ∧ (∀ gs xs x, jlookup gs "objects" = some (.arr xs) → x ∈ xs →
        parseDetectedObject x = none → frameSchemaParse (.obj gs) = none)
    ∧ (∀ env ep, frameSchemaParse ep = none →
        processEnriched env ep = [.rawMarkedFailed "frame validation failed"]) := by
  refine ⟨fun d => rfl, fun s => rfl, fun b => rfl, rfl, fun xs => rfl, fun gs => rfl,
    fun d => rfl, fun s => rfl, fun b => rfl, ?_, ?_, ?_⟩
  · intro gs v hv hz
    cases ho : (jlookup gs "obj_id").bind zStringMin1 <;>
      simp [parseDetectedObject, ho, hv, hz]
  · intro gs xs x hlk hx hpx
    have hobj : (jlookup gs "objects").bind parseObjectsField = none := by
      simp [hlk, parseObjectsField, parseObjects_none_of_mem xs x hx hpx]
    cases h1 : (jlookup gs "fram_id").bind zString <;>
      cases h2 : (jlookup gs "cam_id").bind zStringMin1 <;>
        cases h3 : (jlookup gs "token_id").bind parseTokenId <;>
          cases h4 : (jlookup gs "timestamp").bind coerceDate <;>
            cases h5 : (jlookup gs "image_info").bind parseImageInfo <;>
              simp [frameSchemaParse, h1, h2, h3, h4, h5, hobj]
  · intro env ep h
    simp [processEnriched, h]

/-- Claim C4 (amended) witness: a boolean lat fails its object, and the
string 13.75 coerces to the decimal 13.75. -/
theorem validator_numeric_field_semantics_witness :
    parseDetectedObject (.obj [("obj_id", .str "O1"), ("lat", .bool true)]) = none
      ∧ zNum (.str "13.75") = some ⟨1375, -2⟩ :=
  ⟨validator_numeric_field_semantics.2.2.2.2.2.2.2.2.2.1
      [("obj_id", .str "O1"), ("lat", .bool true)] (.bool true) rfl rfl,
    rfl⟩

/-- Claim C5 counterexample: a payload that is well formed except that its
fram_id is the JSON number 42 fails validation, whereas the claim requires
any scalar fram_id to be accepted and coerced to its string form. -/
theorem validator_rejects_numeric_fram_id :
    frameSchemaParse numericFramIdJson = none := by rfl

/-- Claim C5 (amended): the validator requires fram_id to already be a JSON
string and passes it through verbatim (no coercion): a successfully
validated frame carries exactly the string the payload held, and a payload
whose fram_id is a number, boolean or null fails validation. -/
theorem validator_fram_id_string_only :
    (∀ j f, frameSchemaParse j = some f → jget j "fram_id" = some (.str f.fram_id))
    ∧ (∀ gs d, jlookup gs "fram_id" = some (.num d) → frameSchemaParse (.obj gs) = none)
    ∧ (∀ gs b, jlookup gs "fram_id" = some (.bool b) → frameSchemaParse (.obj gs) = none)
    ∧ (∀ gs, jlookup gs "fram_id" = some .null → frameSchemaParse (.obj gs) = none) := by
  refine ⟨?_, ?_, ?_, ?_⟩
  · intro j f h
    rcases frameSchemaParse_fields j f h with ⟨fs, hj, hfid, _⟩
    subst hj
    exact hfid
  · intro gs d h
    simp [frameSchemaParse, h, zString]
  · intro gs b h
    simp [frameSchemaParse, h, zString]
  · intro gs h
    simp [frameSchemaParse, h, zString]

/-- Claim C5 (amended) witness at the sample payload. -/
theorem validator_fram_id_string_only_witness :
    jget sampleJson "fram_id" = some (.str sampleFrame.fram_id) :=
  validator_fram_id_string_only.1 sampleJson sampleFrame rfl

theorem truthy_jget_obj (json : Json) (key : String)
    (h : truthy (jget json key) = true) : ∃ fs, json = Json.obj fs := by
  cases json with
  | obj fs => exact ⟨fs, rfl⟩
  | null => simp [jget, truthy] at h
  | bool b => simp [jget, truthy] at h
  | num d => simp [jget, truthy] at h
  | str s => simp [jget, truthy] at h
  | arr xs => simp [jget, truthy] at h

/-- Claim C2: for a valid bus payload on the frame topic (guards pass,
enrichment resolves, validation succeeds, the database accepts the write),
the handler emits exactly the trace raw-received, persist, one broadcast,
raw-marked-ok: the broadcast event carries the assembled frame fields, its
object count equals that of the validated frame and of the objects array of
the inbound payload, and the broadcast sits after the persistence call and
before the final raw-ok update. -/
theorem ingest_valid_payload_pipeline (env : Env) (text : String) (json ep : Json)
    (f : FramePayload)
    (hfid : truthy (jget json "fram_id") = true)
    (hcid : truthy (jget json "cam_id") = true)
    (henr : computeEnriched env json = .ok ep)
    (hval : frameSchemaParse ep = some f)
    (hper : env.persistOk = true) :
    ingestHandler env env.topicFrame text (some json)
        = [.rawReceived env.topicFrame text, .persistFrame (toSaveParams f),
           .busBroadcast (toBusMsg f), .rawMarkedOk]
      ∧ (toBusMsg f).objects.length = f.objects.length
      ∧ ∀ xs, jget json "objects" = some (.arr xs) → (toBusMsg f).objects.length = xs.length := by
  rcases truthy_jget_obj json "fram_id" hfid with ⟨fs, hj⟩
  subst hj
  refine ⟨?_, rfl, ?_⟩
  · simp [ingestHandler, ingestFrame, Json.isNull, hfid, hcid, henr, processEnriched, hval, hper]
  · intro xs hxs
    rcases frameSchemaParse_fields ep f hval with ⟨gs, hep, _, ys, hys, hpo⟩
    have hkey : jget ep "objects" = jlookup fs "objects" :=
      computeEnriched_preserves_key env fs ep "objects" (by decide) henr
    rw [hep] at hkey
    have hxs' : jlookup fs "objects" = some (.arr xs) := hxs
    have hkey' : jlookup gs "objects" = some (Json.arr xs) := by
      rw [← hxs']
      exact hkey
    rw [hys] at hkey'
    have hyx : Json.arr ys = Json.arr xs := by
      injection hkey' with hv
    have : ys = xs := by injection hyx
    subst this
    show f.objects.length = ys.length
    exact parseObjects_length ys f.objects hpo

/-- Claim C2 witness at the sample payload under the healthy environment. -/
theorem ingest_valid_payload_pipeline_witness :
    ingestHandler sampleEnv sampleEnv.topicFrame "raw text" (some sampleJson)
      = [.rawReceived sampleEnv.topicFrame "raw text",
         .persistFrame (toSaveParams sampleEnrichedFrame),
         .busBroadcast (toBusMsg sampleEnrichedFrame), .rawMarkedOk] :=
  (ingest_valid_payload_pipeline sampleEnv "raw text" sampleJson sampleEnriched
    sampleEnrichedFrame rfl rfl rfl rfl rfl).1

/-- Claim C3: every inbound bus message first produces the raw-message log
write for receipt, before any parsing or validation; and on the frame topic
the rest of the trace is either a single raw-marked-failed update with the
error reason (no frame persisted, no broadcast emitted, handler returning
normally) or the successful persist-broadcast-ok tail. -/
theorem ingest_raw_first_failure_isolated (env : Env) (topic text : String)
    (parsed : Option Json) :
    (∃ rest, ingestHandler env topic text parsed = .rawReceived topic text :: rest)
    ∧ ∃ rest, ingestHandler env env.topicFrame text parsed
          = .rawReceived env.topicFrame text :: rest
        ∧ ((∃ r, rest = [.rawMarkedFailed r])
           ∨ ∃ p b, rest = [.persistFrame p, .busBroadcast b, .rawMarkedOk]) := by
  refine ⟨⟨_, rfl⟩, ?_⟩
  cases parsed with
  | none =>
    exact ⟨[.rawMarkedFailed "JSON parse error"], by simp [ingestHandler],
      Or.inl ⟨_, rfl⟩⟩
  | some json =>
    refine ⟨ingestFrame env json, by simp [ingestHandler], ?_⟩
    rcases ingestFrame_shape env json with ⟨r, hr⟩ | ⟨f, _, hf⟩
    · exact Or.inl ⟨r, hr⟩
    · exact Or.inr ⟨_, _, hf⟩

/-- Claim C9: on the bus path, when a token is available and the enrichment
call fails, the handler falls back to the embedded token_id.camera_info when
the inbound payload carries one — processing then proceeds on the unchanged
inbound payload through the shared validation, persistence and broadcast
tail — and otherwise rejects the frame: nothing is persisted or broadcast
and the raw message is marked failed with the enrichment error reason. -/
theorem ingest_enrichment_failure_policy (env : Env) (gs : List (String × Json)) (text : String)
    (hfid : truthy (jget (Json.obj gs) "fram_id") = true)
    (hcid : truthy (jget (Json.obj gs) "cam_id") = true)
    (htok : ¬ tokenOf env (.obj gs) = "")
    (hapi : env.apiCameraInfo = none) :
    (hasEmbeddedCameraInfo (.obj gs) = true →
      ingestHandler env env.topicFrame text (some (.obj gs))
        = .rawReceived env.topicFrame text :: processEnriched env (.obj gs))
    ∧ (hasEmbeddedCameraInfo (.obj gs) = false →
      ingestHandler env env.topicFrame text (some (.obj gs))
        = [.rawReceived env.topicFrame text,
           .rawMarkedFailed
             "Camera info not available and API call failed: camera info API call failed"]) := by
  have hcam : truthy (jget (Json.obj (removeKey (toSpreadFields (.obj gs)) "token_id")) "cam_id")
      = true := by
    show truthy (jlookup (removeKey gs "token_id") "cam_id") = true
    rw [jlookup_removeKey_ne gs "token_id" "cam_id" (by decide)]
    exact hcid
  have hmap : mapCameraInfo env (.obj (removeKey (toSpreadFields (.obj gs)) "token_id"))
      (tokenOf env (.obj gs)) = .error "camera info API call failed" := by
    simp [mapCameraInfo, hcam, htok, hapi]
  constructor
  · intro hemb
    have henr : computeEnriched env (.obj gs) = .ok (.obj gs) := by
      simp [computeEnriched, htok, hmap, hemb]
    simp [ingestHandler, ingestFrame, Json.isNull, hfid, hcid, henr]
  · intro hemb
    have henr : computeEnriched env (.obj gs)
        = .error "Camera info not available and API call failed: camera info API call failed" := by
      simp [computeEnriched, htok, hmap, hemb]
    simp [ingestHandler, ingestFrame, Json.isNull, hfid, hcid, henr]

/-- Claim C9 witness: the sample payload carries an embedded camera_info, so
with the API down the handler proceeds on the inbound payload. -/
theorem ingest_enrichment_failure_policy_witness :
    ingestHandler sampleEnvApiDown sampleEnvApiDown.topicFrame "m" (some (.obj sampleFields))
      = .rawReceived sampleEnvApiDown.topicFrame "m"
          :: processEnriched sampleEnvApiDown (.obj sampleFields) :=
  (ingest_enrichment_failure_policy sampleEnvApiDown sampleFields "m" rfl rfl (by decide) rfl).1
    rfl

/-- Claim C8: for a reprocess call whose raw message exists and parses as a
JSON object, the patch is applied as a shallow top-level overwrite (a patch
field replaces the same-named top-level key wholesale, every other key is
taken from the parsed payload); when the patched document fails
re-validation the call returns the validation error with an empty effect
trace (no frame persisted, no stored state mutated); and in every case the
reprocess trace contains no broadcast to live viewers. -/
theorem reprocess_shallow_patch_no_broadcast (store : List (Nat × RawRec)) (persistOk : Bool)
    (newId rawId : Nat) (patch : Option (List (String × Json)))
    (raw : RawRec) (gs : List (String × Json))
    (hlook : lookupRaw store rawId = some raw)
    (hparse : raw.payloadParse = some (.obj gs)) :
    (∀ k, jget (patchedDoc (.obj gs) (patch.getD [])) k
        = match jlookup (patch.getD []) k with
          | some v => some v
          | none => jlookup gs k)
    ∧ (frameSchemaParse (patchedDoc (.obj gs) (patch.getD [])) = none →
        reprocess store persistOk newId rawId patch = (.badRequest "validation failed", []))
    ∧ broadcastCount (reprocess store persistOk newId rawId patch).2 = 0 := by
  refine ⟨?_, ?_, ?_⟩
  · intro k
    show jlookup (spreadMerge (toSpreadFields (.obj gs)) (patch.getD [])) k = _
    rw [jlookup_spreadMerge]
    rfl
  · intro hv
    simp [reprocess, hlook, hparse, hv]
  · unfold reprocess
    cases hl : lookupRaw store rawId with
    | none => simp [broadcastCount]
    | some raw' =>
      cases hp : raw'.payloadParse with
      | none => simp [broadcastCount, hp]
      | some js =>
        cases hf : frameSchemaParse (patchedDoc js (patch.getD [])) with
        | none => simp [broadcastCount, hp, hf]
        | some fr =>
          cases persistOk with
          | false => simp [broadcastCount, hp, hf]
          | true => simp [broadcastCount, hp, hf, Event.isBroadcast]

/-- Claim C8 witness: reprocessing the stored sample payload with a patch
that replaces fram_id emits no broadcast. -/
theorem reprocess_shallow_patch_no_broadcast_witness :
    broadcastCount (reprocess sampleStore true 99 7 (some [("fram_id", .str "9")])).2 = 0 :=
  (reprocess_shallow_patch_no_broadcast sampleStore true 99 7 (some [("fram_id", .str "9")])
    ⟨some sampleJson⟩ sampleFields rfl rfl).2.2
